import Mathlib

/-
Verification of the chat relay backend (src/chat_backend.py) and of the
itinerary-state memory tools (src/main_agent/memory.py).

The embedding is shallow: the Python functions are translated into pure
Lean functions.  External effects are made explicit:
  - real-time database writes become a trace (a list of `DbWrite` values);
  - the remote agent round-trip becomes an `InvokeOutcome` parameter
    (the structured reply dictionary, or a raised exception);
  - environment configuration (`MAIN_AGENT_URL`) becomes an
    `Option String` parameter;
  - generated UUIDs and timestamps become string parameters;
  - a database write that raises becomes an `Option String` parameter
    carrying the exception message (`none` = the write succeeded).
-/

/-! Strings: the Python substring test `needle in hay`. -/

/-- Python substring containment, on lists of characters: true exactly when
`needle` occurs as a contiguous run inside the second list. -/
def containsAux (needle : List Char) : List Char → Bool
  | [] => needle.isPrefixOf []
  | c :: rest => needle.isPrefixOf (c :: rest) || containsAux needle rest

/-- Python `needle in hay` for strings. -/
def strContains (hay needle : String) : Bool :=
  containsAux needle.toList hay.toList

/-- The test `"Error:" in agent_response_text` used by
`process_agent_response` (src/chat_backend.py line 84). -/
def containsErrorTag (text : String) : Bool :=
  strContains text ("Error:")

/-! Database paths.  Both `chat` and `process_agent_response` construct the
conversation path with the f-string
`f"users/{user_id}/itineraries/{itinerary_id}/messages"`
(src/chat_backend.py lines 80 and 153). -/

/-- Path of the messages collection of a conversation key. -/
def messagesPath (user_id itinerary_id : String) : String :=
  "users/" ++ user_id ++ "/itineraries/" ++ itinerary_id ++ "/messages"

/-! Messages and database writes. -/

/-- The pydantic `Message` model (src/chat_backend.py lines 63-70). -/
structure Message where
  sender : String
  message : String
  timestamp : String
  activityType : Option String
  activity_object : Option String
  bookingRef : Option String
  message_type : String
deriving DecidableEq

/-- A `Message` as both handlers build it: the three activity fields are
passed as `None` and `message_type` as `"text"`. -/
def mkMessage (sender text ts : String) : Message :=
  ⟨sender, text, ts, none, none, none, "text"⟩

/-- One attempted write against the real-time database:
`messages_ref.child(msgId).set(msg.model_dump())` or
`messages_ref.update({"typing": value})`. -/
inductive DbWrite where
  | setMsg (path msgId : String) (msg : Message)
  | updateTyping (path : String) (value : Bool)
deriving DecidableEq

/-! The remote agent invocation: `get_agent_response`. -/

/-- The reply dictionary of `connections.invoke_agent`, restricted to the
two fields the backend reads: `"result"` and `"error"`.  `none` models
absence of the field. -/
structure AgentReply where
  result : Option String
  error : Option String
deriving DecidableEq

/-- Outcome of the remote round-trip inside the `try` block of
`get_agent_response`: either a reply dictionary is produced, or some step
(`RemoteConnections.create`, `invoke_agent`, `close`) raises. -/
inductive InvokeOutcome where
  | reply (r : AgentReply)
  | raise
deriving DecidableEq

/-- `get_agent_response` (src/chat_backend.py lines 111-134), instrumented:
the second component records whether a connection to the agent was
attempted (i.e. whether control entered the `try` block).

The translation of the body, in source order:
  - `MAIN_AGENT_URL` unset: return `"Error: Main agent URL not configured."`
    before any connection attempt;
  - any exception from the remote round-trip: caught, return
    `"Error: Could not connect to the main agent."`;
  - reply with a `"result"` field: return it verbatim (no JSON decoding);
  - otherwise: return `"Error: "` followed by the `"error"` field,
    defaulting to `"Unknown error from agent."`.

The Lean function is total: no exception propagates to the caller. -/
def get_agent_response_traced (url : Option String) (outcome : InvokeOutcome) :
    String × Bool :=
  match url with
  | none => ("Error: Main agent URL not configured.", false)
  | some _ =>
    match outcome with
    | .raise => ("Error: Could not connect to the main agent.", true)
    | .reply r =>
      match r.result with
      | some s => (s, true)
      | none => ("Error: " ++ r.error.getD ("Unknown error from agent."), true)

/-- The string returned by `get_agent_response`. -/
def get_agent_response (url : Option String) (outcome : InvokeOutcome) : String :=
  (get_agent_response_traced url outcome).1

/-! The background delegation task: `process_agent_response`. -/

/-- `process_agent_response` (src/chat_backend.py lines 74-109) as the
trace of database writes it issues.  `agentMsgId` models `uuid.uuid4()`
and `ts` the timestamp.  Body:

  - compute `agent_response_text = get_agent_response(...)`;
  - if `"Error:"` is NOT a substring of it, persist a model `Message`
    (if it IS, nothing is persisted: the branch has no else);
  - any exception in the `try` block is caught and logged only;
  - the `finally` block always issues `update({"typing": False})`. -/
def process_agent_response (user_id itinerary_id agentMsgId ts : String)
    (url : Option String) (outcome : InvokeOutcome) : List DbWrite :=
  let path := messagesPath user_id itinerary_id
  let text := get_agent_response url outcome
  (if containsErrorTag text then []
   else [DbWrite.setMsg path agentMsgId (mkMessage ("model") text ts)])
  ++ [DbWrite.updateTyping path false]

/-! The `/chat` endpoint. -/

/-- The HTTP-visible outcome of `chat`: the success body
`{"status": "success", "message": "Message sent to agent"}` or the raised
`HTTPException(status_code=500, detail=...)`. -/
inductive ChatResponse where
  | success (status message : String)
  | httpError (statusCode : Nat) (detail : String)
deriving DecidableEq

/-- What one `/chat` request does: the database writes it issued, the
HTTP response, and whether the background delegation was enqueued. -/
structure ChatResult where
  writes : List DbWrite
  response : ChatResponse
  delegationEnqueued : Bool
deriving DecidableEq

/-- The `/chat` handler (src/chat_backend.py lines 138-189).  `userMsgId`
models `uuid.uuid4()` and `ts` the timestamp.  `persistExc` / `typingExc`
model whether `messages_ref.child(user_message_id).set(...)` /
`messages_ref.update({"typing": True})` raise, carrying the exception
message.  The whole body sits in one `try` block whose handler raises
`HTTPException(500, f"An internal error occurred: {e}")`, so a failure of
either write aborts the request before `background_tasks.add_task`. -/
def chat (user_id itinerary_id msgText userMsgId ts : String)
    (persistExc typingExc : Option String) : ChatResult :=
  let path := messagesPath user_id itinerary_id
  let userMsg := mkMessage ("user") msgText ts
  match persistExc with
  | some e =>
    ⟨[DbWrite.setMsg path userMsgId userMsg],
     ChatResponse.httpError 500 ("An internal error occurred: " ++ e),
     false⟩
  | none =>
    match typingExc with
    | some e =>
      ⟨[DbWrite.setMsg path userMsgId userMsg, DbWrite.updateTyping path true],
       ChatResponse.httpError 500 ("An internal error occurred: " ++ e),
       false⟩
    | none =>
      ⟨[DbWrite.setMsg path userMsgId userMsg, DbWrite.updateTyping path true],
       ChatResponse.success ("success") ("Message sent to agent"),
       true⟩

/-! The itinerary-state memory tools (src/main_agent/memory.py).

`update_state_field` walks a dotted key path through the freshly
reconstructed pydantic state object (lists are indexed with `int(k)`,
everything else navigated with `getattr`), assigns the last key with
`setattr`, and only then writes the state back with `update_state`. -/

/-- Modelled from the spec: `ItineraryState` lives in
src/main_agent/models.py, which is not among the sources; the spec
describes it as "a structured document (trip plan: e.g. days, activities,
bookings) addressed by a dotted field path".  It is modelled as a generic
tree of pydantic objects (named fields), Python lists, and opaque scalar
leaves. -/
inductive StateVal where
  | prim (s : String)
  | obj (fields : List (String × StateVal))
  | arr (elems : List StateVal)

/-- The Python exceptions `update_state_field` can raise while resolving
or assigning the key path. -/
inductive PyErr where
  | attributeError (name : String)
  | valueError (msg : String)
  | indexError
deriving DecidableEq

/-- Field lookup in an ordered association list: Python attribute /
dictionary lookup by name. -/
def lookupField : List (String × StateVal) → String → Option StateVal
  | [], _ => none
  | (k0, v0) :: rest, k => if k0 = k then some v0 else lookupField rest k

/-- `getattr(obj, k)`: field access on a pydantic object; anything else
(scalar, or a missing field) raises `AttributeError`. -/
def getattrF : StateVal → String → Except PyErr StateVal
  | .obj fields, k =>
    match lookupField fields k with
    | some v => .ok v
    | none => .error (.attributeError k)
  | .arr _, k => .error (.attributeError k)
  | .prim _, k => .error (.attributeError k)

/-- Digit-string value accumulator for `int(k)`. -/
def digitsValAux : List Char → Nat → Option Nat
  | [], acc => some acc
  | c :: rest, acc =>
    if c.isDigit then digitsValAux rest (acc * 10 + (c.toNat - 48)) else none

/-- Python `int(k)` on a plain numeric string: an optional sign followed
by at least one decimal digit (whitespace and underscore grouping, which
Python also tolerates, are not modelled). -/
def pyIntParse (s : String) : Option Int :=
  match s.data with
  | [] => none
  | '-' :: rest =>
    match rest with
    | [] => none
    | _ => (digitsValAux rest 0).map (fun n => -(n : Int))
  | '+' :: rest =>
    match rest with
    | [] => none
    | _ => (digitsValAux rest 0).map (fun n => (n : Int))
  | l => (digitsValAux l 0).map (fun n => (n : Int))

/-- `int(k)` as used for list indexing: a non-integer key raises
`ValueError`. -/
def pyToInt (k : String) : Except PyErr Int :=
  match pyIntParse k with
  | some n => .ok n
  | none => .error (.valueError k)

/-- Python list indexing `l[n]` with negative-index wrap-around; out of
range raises `IndexError`. -/
def pyListGet (l : List StateVal) (n : Int) : Except PyErr StateVal :=
  let m := if n < 0 then n + l.length else n
  if m < 0 then .error .indexError
  else
    match l[m.toNat]? with
    | some v => .ok v
    | none => .error .indexError

/-- Functional rendering of the in-place update of a list element
`l[n] = v` (same index normalisation and bounds behaviour as reading). -/
def pyListSet (l : List StateVal) (n : Int) (v : StateVal) :
    Except PyErr (List StateVal) :=
  let m := if n < 0 then n + l.length else n
  if m < 0 then .error .indexError
  else if m.toNat < l.length then .ok (l.set m.toNat v)
  else .error .indexError

/-- Replace the value of field `k` (first occurrence) in a field list. -/
def replaceField : List (String × StateVal) → String → StateVal →
    List (String × StateVal)
  | [], _, _ => []
  | (k0, v0) :: rest, k, v =>
    if k0 = k then (k, v) :: rest else (k0, v0) :: replaceField rest k v

/-- `setattr(obj, k, value)`: on a pydantic object with field `k`, replace
it; on a pydantic object without that field, pydantic raises `ValueError`;
on a list or scalar, Python raises `AttributeError`. -/
def setattrF (v : StateVal) (k : String) (newVal : StateVal) :
    Except PyErr StateVal :=
  match v with
  | .obj fields =>
    if (lookupField fields k).isSome then .ok (.obj (replaceField fields k newVal))
    else .error (.valueError ("object has no field " ++ k))
  | .arr _ => .error (.attributeError k)
  | .prim _ => .error (.attributeError k)

/-- The navigation loop of `update_state_field` followed by the final
`setattr`, rendered functionally: mutating the object reached through the
`getattr`/indexing chain is rebuilding the tree along the chain (the
freshly parsed state tree has no internal sharing).  The `[]` branch is
unreachable from `update_state_field` because `key.split('.')` is never
empty. -/
def mutatePath : StateVal → List String → StateVal → Except PyErr StateVal
  | _, [], _ => .error (.valueError ("empty key path"))
  | v, [k], newVal => setattrF v k newVal
  | v, k :: k2 :: rest, newVal =>
    match v with
    | .obj fields =>
      match lookupField fields k with
      | some child =>
        match mutatePath child (k2 :: rest) newVal with
        | .ok child2 => .ok (.obj (replaceField fields k child2))
        | .error e => .error e
      | none => .error (.attributeError k)
    | .arr l =>
      match pyToInt k with
      | .ok n =>
        match pyListGet l n with
        | .ok child =>
          match mutatePath child (k2 :: rest) newVal with
          | .ok child2 =>
            match pyListSet l n child2 with
            | .ok l2 => .ok (.arr l2)
            | .error e => .error e
          | .error e => .error e
        | .error e => .error e
      | .error e => .error e
    | .prim _ => .error (.attributeError k)

/-- The tool context session state: the dictionary `tool_context.state`,
of which the code reads and writes the `"itinerary_state"` entry. -/
structure ToolContext where
  state : List (String × StateVal)

/-- Python dictionary assignment `d[k] = v`. -/
def dictSet (d : List (String × StateVal)) (k : String) (v : StateVal) :
    List (String × StateVal) :=
  if (lookupField d k).isSome then replaceField d k v else d ++ [(k, v)]

/-- `get_state` (src/main_agent/memory.py lines 39-45): read the
`"itinerary_state"` entry, defaulting to an empty document, and
reconstruct a fresh `ItineraryState` from it (reconstruction of the
freshly read tree is the identity here; the point is that the result
shares no mutable structure with the stored entry). -/
def get_state (ctx : ToolContext) : StateVal :=
  (lookupField ctx.state ("itinerary_state")).getD (.obj [])

/-- `update_state` (src/main_agent/memory.py lines 46-50): store the
serialised state back under `"itinerary_state"`. -/
def update_state (ctx : ToolContext) (st : StateVal) : ToolContext :=
  ⟨dictSet ctx.state ("itinerary_state") st⟩

/-- Python `key.split('.')` over the characters of the key; the result is
never empty (splitting the empty string yields `[""]`). -/
def splitDotAux : List Char → List Char → List String
  | [], acc => [String.mk acc.reverse]
  | c :: rest, acc =>
    if c = '.' then String.mk acc.reverse :: splitDotAux rest []
    else splitDotAux rest (c :: acc)

/-- Python `key.split('.')`. -/
def pySplit (key : String) : List String :=
  splitDotAux key.data []

/-- `update_state_field` (src/main_agent/memory.py lines 60-74), with the
raised exception made explicit in the result.  The source order is:
read and reconstruct the state, split the key, walk `keys[:-1]`, assign
`keys[-1]`, and only on success call `update_state`; an exception raised
during the walk or the assignment propagates before any store write, so
the context is returned unchanged in that case. -/
def update_state_field (ctx : ToolContext) (key : String) (value : StateVal) :
    ToolContext × Except PyErr String :=
  let state := get_state ctx
  let keys := pySplit key
  match mutatePath state keys value with
  | .error e => (ctx, .error e)
  | .ok state2 =>
    (update_state ctx state2, .ok ("Itinerary state updated successfully."))

/-! Canonical locations inside a state tree.

Dotted-path strings can alias on list indices (`"0"`, `"00"`, and a
wrapped `"-3"` can address the same element), so the frame property of
`update_state_field` is stated over canonical locations: a location step
is a field name or an absolute list position. -/

/-- One canonical step into a state tree. -/
inductive PathStep where
  | field (k : String)
  | index (n : Nat)
deriving DecidableEq

/-- Read the subtree at a canonical location. -/
def lookupLoc : StateVal → List PathStep → Option StateVal
  | v, [] => some v
  | .obj fields, .field k :: rest =>
    match lookupField fields k with
    | some c => lookupLoc c rest
    | none => none
  | .arr l, .index n :: rest =>
    match l[n]? with
    | some c => lookupLoc c rest
    | none => none
  | .obj _, .index _ :: _ => none
  | .arr _, .field _ :: _ => none
  | .prim _, _ :: _ => none

/-! Helper lemmas. -/

/-- Any string built by the f-string `f"Error: {...}"` contains the
substring `"Error:"`. -/
theorem containsErrorTag_append (e : String) :
    containsErrorTag ("Error: " ++ e) = true := rfl

/-- When the text returned by the agent invocation contains `"Error:"`,
the background task issues only the typing-clear write. -/
theorem process_agent_response_skips
    (user_id itinerary_id agentMsgId ts : String)
    (url : Option String) (outcome : InvokeOutcome)
    (h : containsErrorTag (get_agent_response url outcome) = true) :
    process_agent_response user_id itinerary_id agentMsgId ts url outcome
      = [DbWrite.updateTyping (messagesPath user_id itinerary_id) false] := by
  unfold process_agent_response
  simp [h]

/-! Claim theorems. -/

/-- Claim C1, counterexample: on the agent reply `{"error": "timeout"}`
the background task issues only the typing-clear write — no model
`Message` communicating the failure is persisted, contrary to the claim
that the error reply is never silently dropped. -/
theorem C1_counterexample :
    process_agent_response ("u1") ("it1") ("mid1") ("ts1")
        (some ("http://agent.example"))
        (InvokeOutcome.reply ⟨none, some ("timeout")⟩)
      = [DbWrite.updateTyping ("users/u1/itineraries/it1/messages") false] := by
  decide

/-- Claim C1, amended: for every background delegation whose agent
invocation ends in an error — an `{"error": ...}` reply, a connection
failure, or missing endpoint configuration — `process_agent_response`
persists NO model message at all (the failure is only logged), while
still clearing the typing flag. -/
theorem C1_error_reply_not_persisted
    (user_id itinerary_id agentMsgId ts : String)
    (url : Option String) (outcome : InvokeOutcome)
    (h : url = none ∨ outcome = InvokeOutcome.raise
        ∨ ∃ r, outcome = InvokeOutcome.reply r ∧ r.result = none) :
    process_agent_response user_id itinerary_id agentMsgId ts url outcome
      = [DbWrite.updateTyping (messagesPath user_id itinerary_id) false] := by
  apply process_agent_response_skips
  rcases h with h | h | ⟨r, hr, hres⟩
  · subst h; rfl
  · subst h
    cases url with
    | none => rfl
    | some u => rfl
  · subst hr
    cases url with
    | none => rfl
    | some u =>
      obtain ⟨res, err⟩ := r
      cases hres
      exact containsErrorTag_append (err.getD ("Unknown error from agent."))

/-- Claim C1, witness for the amended theorem, at a connection failure. -/
theorem C1_witness :
    process_agent_response ("u1") ("it1") ("mid1") ("ts1")
        (some ("http://agent.example")) InvokeOutcome.raise
      = [DbWrite.updateTyping ("users/u1/itineraries/it1/messages") false] :=
  C1_error_reply_not_persisted ("u1") ("it1") ("mid1") ("ts1")
    (some ("http://agent.example")) InvokeOutcome.raise (Or.inr (Or.inl rfl))

/-- Claim C2, counterexample: on the nested-envelope reply the code
persists the RAW envelope string as the model message text — no
nested-JSON decode happens, so the persisted text is not
`"Paris is lovely"`. -/
theorem C2_counterexample :
    process_agent_response ("u1") ("it1") ("am1") ("ts1")
        (some ("http://agent.example"))
        (InvokeOutcome.reply
          ⟨some ("\x7b\"result\": \"Paris is lovely\", \"state\": \x7b\x7d\x7d"),
           none⟩)
      = [DbWrite.setMsg ("users/u1/itineraries/it1/messages") ("am1")
           (mkMessage ("model")
             ("\x7b\"result\": \"Paris is lovely\", \"state\": \x7b\x7d\x7d")
             ("ts1")),
         DbWrite.updateTyping ("users/u1/itineraries/it1/messages") false]
    ∧ ("\x7b\"result\": \"Paris is lovely\", \"state\": \x7b\x7d\x7d" : String)
        ≠ "Paris is lovely" := by
  exact ⟨by decide, by decide⟩

/-- Claim C2, amended: `get_agent_response` performs no JSON decode of the
`result` field: whenever the reply carries a `result` field, that string
is returned verbatim (so a non-JSON `result` is indeed returned as plain
text, and a nested JSON envelope is returned as the raw envelope
string). -/
theorem C2_result_returned_verbatim (u s : String) (err : Option String) :
    get_agent_response (some u) (InvokeOutcome.reply ⟨some s, err⟩) = s := rfl

/-- Claim C4, counterexample: with the initial persist succeeding and the
typing=true write raising, the request returns a 500 error and does NOT
enqueue the background delegation — the failure is not swallowed. -/
theorem C4_counterexample :
    (chat ("u1") ("it1") ("hello") ("um1") ("ts1") none
        (some ("firebase unavailable"))).delegationEnqueued = false
    ∧ (chat ("u1") ("it1") ("hello") ("um1") ("ts1") none
        (some ("firebase unavailable"))).response
      = ChatResponse.httpError 500
          ("An internal error occurred: firebase unavailable") := by
  exact ⟨rfl, rfl⟩

/-- Claim C4, amended: a failure of the typing=true write is handled by
the same `except` block as a persist failure: the request is aborted with
a 500 error carrying the exception detail, the background delegation is
not enqueued, and no success response is returned. -/
theorem C4_typing_failure_aborts
    (user_id itinerary_id msgText userMsgId ts e : String) :
    chat user_id itinerary_id msgText userMsgId ts none (some e)
      = ⟨[DbWrite.setMsg (messagesPath user_id itinerary_id) userMsgId
            (mkMessage ("user") msgText ts),
          DbWrite.updateTyping (messagesPath user_id itinerary_id) true],
         ChatResponse.httpError 500 ("An internal error occurred: " ++ e),
         false⟩ := rfl

/-- Claim C6: any exception raised while reaching the remote agent is
caught and converted to the error text
`"Error: Could not connect to the main agent."` (which contains the
claimed text and is error-flavoured); the function is total, so no
exception propagates; and a missing `MAIN_AGENT_URL` is surfaced as an
error-flavoured result with no connection attempt (traced flag false). -/
theorem C6_connection_failure_converted (u : String) (r : AgentReply) :
    get_agent_response (some u) InvokeOutcome.raise
      = "Error: Could not connect to the main agent."
    ∧ strContains (get_agent_response (some u) InvokeOutcome.raise)
        ("Could not connect to the main agent") = true
    ∧ containsErrorTag (get_agent_response (some u) InvokeOutcome.raise) = true
    ∧ (get_agent_response_traced none (InvokeOutcome.reply r)).2 = false
    ∧ (get_agent_response_traced none InvokeOutcome.raise).2 = false
    ∧ containsErrorTag (get_agent_response none (InvokeOutcome.reply r)) = true
    ∧ containsErrorTag (get_agent_response none InvokeOutcome.raise) = true := by
  exact ⟨rfl, rfl, rfl, rfl, rfl, rfl, rfl⟩

/-- Claim C7, counterexample: the user-message persist succeeds (its write
is issued) and yet the endpoint returns a 500 error, refuting "success
exactly when the initial persist succeeds". -/
theorem C7_counterexample :
    (chat ("u1") ("it1") ("hi") ("um2") ("ts1") none
        (some ("update failed"))).writes
      = [DbWrite.setMsg ("users/u1/itineraries/it1/messages") ("um2")
           (mkMessage ("user") ("hi") ("ts1")),
         DbWrite.updateTyping ("users/u1/itineraries/it1/messages") true]
    ∧ (chat ("u1") ("it1") ("hi") ("um2") ("ts1") none
        (some ("update failed"))).response
      = ChatResponse.httpError 500
          ("An internal error occurred: update failed") := by
  exact ⟨rfl, rfl⟩

/-- Claim C7, amended: the endpoint returns
`{"status": "success", "message": "Message sent to agent"}` exactly when
both the initial persist and the typing=true write succeed; when either
raises, it returns a 500 error with a detail string and does not enqueue
the delegation; no other status codes are produced. -/
theorem C7_status_characterization
    (user_id itinerary_id msgText userMsgId ts : String) :
    ((chat user_id itinerary_id msgText userMsgId ts none none).response
        = ChatResponse.success ("success") ("Message sent to agent")
      ∧ (chat user_id itinerary_id msgText userMsgId ts none none).delegationEnqueued
          = true)
    ∧ (∀ e te, (chat user_id itinerary_id msgText userMsgId ts (some e) te).response
          = ChatResponse.httpError 500 ("An internal error occurred: " ++ e)
        ∧ (chat user_id itinerary_id msgText userMsgId ts (some e) te).delegationEnqueued
            = false)
    ∧ (∀ e, (chat user_id itinerary_id msgText userMsgId ts none (some e)).response
          = ChatResponse.httpError 500 ("An internal error occurred: " ++ e)
        ∧ (chat user_id itinerary_id msgText userMsgId ts none (some e)).delegationEnqueued
            = false) := by
  exact ⟨⟨rfl, rfl⟩, fun e te => ⟨rfl, rfl⟩, fun e => ⟨rfl, rfl⟩⟩

/-- Claim C8: a reply carrying neither `result` nor `error` is treated as
the default error and the returned text is
`"Error: Unknown error from agent."`, which carries the claimed text. -/
theorem C8_unknown_error_default (u : String) (r : AgentReply)
    (hres : r.result = none) (herr : r.error = none) :
    get_agent_response (some u) (InvokeOutcome.reply r)
      = "Error: Unknown error from agent."
    ∧ strContains (get_agent_response (some u) (InvokeOutcome.reply r))
        ("Unknown error from agent") = true := by
  obtain ⟨res, err⟩ := r
  cases hres
  cases herr
  exact ⟨rfl, rfl⟩

/-- Claim C8, witness. -/
theorem C8_witness :
    get_agent_response (some ("http://agent.example"))
        (InvokeOutcome.reply ⟨none, none⟩)
      = "Error: Unknown error from agent."
    ∧ strContains (get_agent_response (some ("http://agent.example"))
        (InvokeOutcome.reply ⟨none, none⟩))
        ("Unknown error from agent") = true :=
  C8_unknown_error_default ("http://agent.example") ⟨none, none⟩ rfl rfl

/-- Claim C9: error detection in the background task is by substring —
whenever the text returned by the agent invocation contains `"Error:"`
anywhere, no model message is persisted and only the typing-clear write
is issued. -/
theorem C9_substring_error_detection
    (user_id itinerary_id agentMsgId ts : String)
    (url : Option String) (outcome : InvokeOutcome)
    (h : containsErrorTag (get_agent_response url outcome) = true) :
    process_agent_response user_id itinerary_id agentMsgId ts url outcome
      = [DbWrite.updateTyping (messagesPath user_id itinerary_id) false] :=
  process_agent_response_skips user_id itinerary_id agentMsgId ts url outcome h

/-- Claim C9, witness: a legitimate successful answer that merely mentions
`"Error:"` is dropped. -/
theorem C9_witness :
    containsErrorTag (get_agent_response (some ("http://agent.example"))
        (InvokeOutcome.reply
          ⟨some ("To fix the build, remove the line that logs Error: invalid state."),
           none⟩)) = true
    ∧ process_agent_response ("u9") ("it9") ("am9") ("ts9")
        (some ("http://agent.example"))
        (InvokeOutcome.reply
          ⟨some ("To fix the build, remove the line that logs Error: invalid state."),
           none⟩)
      = [DbWrite.updateTyping ("users/u9/itineraries/it9/messages") false] :=
  ⟨by decide,
   C9_substring_error_detection ("u9") ("it9") ("am9") ("ts9")
     (some ("http://agent.example"))
     (InvokeOutcome.reply
       ⟨some ("To fix the build, remove the line that logs Error: invalid state."),
        none⟩)
     (by decide)⟩

/-- Claim C3: the full trace of one request — the two synchronous writes
of a successful `chat` followed by the background task's writes — always
contains the typing=true write strictly before a typing=false write on
the same conversation path, regardless of the agent invocation's outcome
(success, error-flavoured result, connection failure, or missing
configuration): the clear sits in the `finally` block. -/
theorem C3_typing_true_then_false
    (user_id itinerary_id msgText userMsgId agentMsgId ts ts2 : String)
    (url : Option String) (outcome : InvokeOutcome) :
    ∃ j k : Nat, j < k
      ∧ ((chat user_id itinerary_id msgText userMsgId ts none none).writes
          ++ process_agent_response user_id itinerary_id agentMsgId ts2 url outcome)[j]?
          = some (DbWrite.updateTyping (messagesPath user_id itinerary_id) true)
      ∧ ((chat user_id itinerary_id msgText userMsgId ts none none).writes
          ++ process_agent_response user_id itinerary_id agentMsgId ts2 url outcome)[k]?
          = some (DbWrite.updateTyping (messagesPath user_id itinerary_id) false) := by
  cases h : containsErrorTag (get_agent_response url outcome) with
  | true =>
    refine ⟨1, 2, by omega, ?_, ?_⟩ <;>
      simp [chat, process_agent_response, h]
  | false =>
    refine ⟨1, 3, by omega, ?_, ?_⟩ <;>
      simp [chat, process_agent_response, h]

/-- Splitting at the first occurrence of a separator is unambiguous for
separator-free left parts. -/
theorem split_at_sep (c : Char) :
    ∀ (a1 a2 b1 b2 : List Char), c ∉ a1 → c ∉ a2 →
      a1 ++ c :: b1 = a2 ++ c :: b2 → a1 = a2 ∧ b1 = b2 := by
  intro a1
  induction a1 with
  | nil =>
    intro a2 b1 b2 h1 h2 h
    cases a2 with
    | nil =>
      refine ⟨rfl, ?_⟩
      simpa using h
    | cons y ys =>
      rw [List.nil_append, List.cons_append] at h
      injection h with hc htail
      subst hc
      exact absurd (List.mem_cons_self _ _) h2
  | cons x xs ih =>
    intro a2 b1 b2 h1 h2 h
    cases a2 with
    | nil =>
      rw [List.nil_append, List.cons_append] at h
      injection h with hc htail
      subst hc
      exact absurd (List.mem_cons_self _ _) h1
    | cons y ys =>
      rw [List.cons_append, List.cons_append] at h
      injection h with hxy htail
      have h1x : c ∉ xs := fun hm => h1 (List.mem_cons_of_mem _ hm)
      have h2y : c ∉ ys := fun hm => h2 (List.mem_cons_of_mem _ hm)
      obtain ⟨ha, hb⟩ := ih ys b1 b2 h1x h2y htail
      subst hxy
      exact ⟨by rw [ha], hb⟩

/-- The characters of the infix separator `"/itineraries/"` start with a
slash. -/
theorem slash_cons_itineraries :
    ("/itineraries/" : String).data = '/' :: ("itineraries/" : String).data := rfl

/-- The characters of the suffix `"/messages"` start with a slash. -/
theorem slash_cons_messages :
    ("/messages" : String).data = '/' :: ("messages" : String).data := rfl

/-- The characters of a messages path, grouped around the two slash
separators that follow the id segments. -/
theorem messagesPath_data (u i : String) :
    (messagesPath u i).data
      = ("users/" : String).data
        ++ (u.data ++ ('/' :: (("itineraries/" : String).data
        ++ (i.data ++ ('/' :: ("messages" : String).data))))) := by
  have h0 : (messagesPath u i).data
      = ((("users/" : String).data ++ u.data)
          ++ ("/itineraries/" : String).data ++ i.data)
          ++ ("/messages" : String).data := rfl
  rw [h0, slash_cons_itineraries, slash_cons_messages]
  simp [List.append_assoc]

/-- Claim C5, counterexample: two distinct conversation keys whose ids
contain a slash collide on the very same messages path. -/
theorem C5_counterexample :
    messagesPath ("a/itineraries/b") ("c") = messagesPath ("a") ("b/itineraries/c")
    ∧ (("a/itineraries/b", "c") : String × String) ≠ ("a", "b/itineraries/c") := by
  exact ⟨by decide, by decide⟩

/-- Claim C5, amended: restricted to ids containing no `'/'` character,
the messages-path construction is injective in the conversation key, so
two requests for different slash-free conversation keys never write to
the same messages path. -/
theorem C5_path_injective_of_slash_free (u1 i1 u2 i2 : String)
    (hu1 : '/' ∉ u1.data) (hu2 : '/' ∉ u2.data)
    (hi1 : '/' ∉ i1.data) (hi2 : '/' ∉ i2.data)
    (h : messagesPath u1 i1 = messagesPath u2 i2) :
    u1 = u2 ∧ i1 = i2 := by
  have hd := congrArg String.data h
  rw [messagesPath_data, messagesPath_data] at hd
  have hd2 := List.append_cancel_left hd
  obtain ⟨hu, ht⟩ := split_at_sep '/' u1.data u2.data _ _ hu1 hu2 hd2
  have ht2 := List.append_cancel_left ht
  obtain ⟨hi, -⟩ := split_at_sep '/' i1.data i2.data _ _ hi1 hi2 ht2
  exact ⟨String.ext hu, String.ext hi⟩

/-- Claim C5, witness for the amended theorem at concrete slash-free
ids. -/
theorem C5_witness : ("alice" : String) = "alice" ∧ ("trip1" : String) = "trip1" :=
  C5_path_injective_of_slash_free ("alice") ("trip1") ("alice") ("trip1")
    (by decide) (by decide) (by decide) (by decide) rfl

/-- Replacing a present field is observed by subsequent lookup. -/
theorem lookupField_replaceField_self (fields : List (String × StateVal))
    (k : String) (v : StateVal) (h : (lookupField fields k).isSome) :
    lookupField (replaceField fields k v) k = some v := by
  induction fields with
  | nil => simp [lookupField] at h
  | cons kv rest ih =>
    obtain ⟨k0, v0⟩ := kv
    by_cases hk : k0 = k
    · subst hk
      simp [replaceField, lookupField]
    · simp only [lookupField, if_neg hk] at h
      simp [replaceField, if_neg hk, lookupField, ih h]

/-- Replacing field `k` leaves lookups of other keys unchanged. -/
theorem lookupField_replaceField_ne (fields : List (String × StateVal))
    (k k1 : String) (v : StateVal) (h : k1 ≠ k) :
    lookupField (replaceField fields k v) k1 = lookupField fields k1 := by
  induction fields with
  | nil => rfl
  | cons kv rest ih =>
    obtain ⟨k0, v0⟩ := kv
    by_cases hk : k0 = k
    · subst hk
      have hne : ¬ k0 = k1 := fun hh => h hh.symm
      simp [replaceField, lookupField, hne]
    · simp [replaceField, hk, lookupField, ih]

/-- A successful Python list read determines the absolute position and
guarantees the corresponding write succeeds at the same position. -/
theorem pyListGet_ok_inv (l : List StateVal) (n : Int) (child : StateVal)
    (h : pyListGet l n = Except.ok child) :
    ∃ m : Nat, l[m]? = some child
      ∧ ∀ v, pyListSet l n v = Except.ok (l.set m v) := by
  simp only [pyListGet] at h
  by_cases hneg : (if n < 0 then n + (l.length : Int) else n) < 0
  · rw [if_pos hneg] at h
    exact absurd h (by simp)
  · rw [if_neg hneg] at h
    cases hg : l[(if n < 0 then n + (l.length : Int) else n).toNat]? with
    | none =>
      simp only [hg] at h
      exact absurd h (by simp)
    | some c =>
      simp only [hg] at h
      injection h with hc
      subst hc
      refine ⟨(if n < 0 then n + (l.length : Int) else n).toNat, hg, fun v => ?_⟩
      have hlen : (if n < 0 then n + (l.length : Int) else n).toNat < l.length :=
        (List.getElem?_eq_some.mp hg).1
      simp only [pyListSet]
      rw [if_neg hneg, if_pos hlen]

/-- Frame property of the path mutation: a successful `mutatePath` places
the new value at some canonical location and leaves every diverging
canonical location unchanged. -/
theorem mutatePath_frame :
    ∀ (ks : List String) (v newVal st2 : StateVal),
      mutatePath v ks newVal = Except.ok st2 →
      ∃ loc : List PathStep,
        lookupLoc st2 loc = some newVal
        ∧ ∀ q, ¬ loc <+: q → ¬ q <+: loc → lookupLoc st2 q = lookupLoc v q := by
  intro ks
  induction ks with
  | nil =>
    intro v newVal st2 h
    simp [mutatePath] at h
  | cons k rest ih =>
    intro v newVal st2 h
    cases rest with
    | nil =>
      have hset : mutatePath v [k] newVal = setattrF v k newVal := rfl
      rw [hset] at h
      cases v with
      | prim s => exact absurd h (by simp [setattrF])
      | arr l => exact absurd h (by simp [setattrF])
      | obj fields =>
        simp only [setattrF] at h
        by_cases hs : (lookupField fields k).isSome
        · rw [if_pos hs] at h
          injection h with hst
          subst hst
          refine ⟨[PathStep.field k], ?_, ?_⟩
          · simp only [lookupLoc, lookupField_replaceField_self fields k newVal hs]
          · intro q hq1 hq2
            cases q with
            | nil => exact absurd List.nil_prefix hq2
            | cons step qrest =>
              cases step with
              | field k1 =>
                by_cases hk1 : k1 = k
                · exact absurd ⟨qrest, by simp [hk1]⟩ hq1
                · simp only [lookupLoc, lookupField_replaceField_ne fields k k1 newVal hk1]
              | index n => simp [lookupLoc]
        · rw [if_neg hs] at h
          exact absurd h (by simp)
    | cons k2 rest2 =>
      cases v with
      | prim s =>
        simp only [mutatePath] at h
        exact absurd h (by simp)
      | obj fields =>
        simp only [mutatePath] at h
        cases hlk : lookupField fields k with
        | none =>
          simp only [hlk] at h
          exact absurd h (by simp)
        | some child =>
          simp only [hlk] at h
          cases hmc : mutatePath child (k2 :: rest2) newVal with
          | error e =>
            simp only [hmc] at h
            exact absurd h (by simp)
          | ok child2 =>
            simp only [hmc] at h
            injection h with hst
            subst hst
            obtain ⟨loc2, hv2, hframe2⟩ := ih child newVal child2 hmc
            have hsome : (lookupField fields k).isSome := by rw [hlk]; rfl
            refine ⟨PathStep.field k :: loc2, ?_, ?_⟩
            · simp only [lookupLoc, lookupField_replaceField_self fields k child2 hsome]
              exact hv2
            · intro q hq1 hq2
              cases q with
              | nil => exact absurd List.nil_prefix hq2
              | cons step qrest =>
                cases step with
                | field k1 =>
                  by_cases hk1 : k1 = k
                  · subst hk1
                    have hq1d : ¬ loc2 <+: qrest :=
                      fun hp => hq1 (List.cons_prefix_cons.mpr ⟨rfl, hp⟩)
                    have hq2d : ¬ qrest <+: loc2 :=
                      fun hp => hq2 (List.cons_prefix_cons.mpr ⟨rfl, hp⟩)
                    simp only [lookupLoc,
                      lookupField_replaceField_self fields k1 child2 hsome, hlk]
                    exact hframe2 qrest hq1d hq2d
                  · simp only [lookupLoc,
                      lookupField_replaceField_ne fields k k1 child2 hk1]
                | index n => simp [lookupLoc]
      | arr l =>
        simp only [mutatePath] at h
        cases hpi : pyToInt k with
        | error e =>
          simp only [hpi] at h
          exact absurd h (by simp)
        | ok n =>
          simp only [hpi] at h
          cases hg : pyListGet l n with
          | error e =>
            simp only [hg] at h
            exact absurd h (by simp)
          | ok child =>
            simp only [hg] at h
            cases hmc : mutatePath child (k2 :: rest2) newVal with
            | error e =>
              simp only [hmc] at h
              exact absurd h (by simp)
            | ok child2 =>
              simp only [hmc] at h
              obtain ⟨m, hgm, hsetm⟩ := pyListGet_ok_inv l n child hg
              rw [hsetm child2] at h
              injection h with hst
              subst hst
              obtain ⟨loc2, hv2, hframe2⟩ := ih child newVal child2 hmc
              have hmlen : m < l.length := (List.getElem?_eq_some.mp hgm).1
              refine ⟨PathStep.index m :: loc2, ?_, ?_⟩
              · simp only [lookupLoc, List.getElem?_set_self hmlen]
                exact hv2
              · intro q hq1 hq2
                cases q with
                | nil => exact absurd List.nil_prefix hq2
                | cons step qrest =>
                  cases step with
                  | field k1 => simp [lookupLoc]
                  | index j =>
                    by_cases hj : j = m
                    · subst hj
                      have hq1d : ¬ loc2 <+: qrest :=
                        fun hp => hq1 (List.cons_prefix_cons.mpr ⟨rfl, hp⟩)
                      have hq2d : ¬ qrest <+: loc2 :=
                        fun hp => hq2 (List.cons_prefix_cons.mpr ⟨rfl, hp⟩)
                      simp only [lookupLoc, List.getElem?_set_self hmlen, hgm]
                      exact hframe2 qrest hq1d hq2d
                    · have hmj : m ≠ j := fun hh => hj hh.symm
                      simp only [lookupLoc, List.getElem?_set_ne hmj]

/-- Claim C10: `update_state_field` is atomic with respect to the stored
itinerary state — when resolving or assigning the dotted key path raises,
the tool context (in particular its `"itinerary_state"` entry) is
returned exactly as it was; on success it returns the success message and
the stored state changes only at the addressed location: the new value
sits at one canonical location and every diverging location reads the
same as before. -/
theorem C10_update_state_field_atomic (ctx : ToolContext) (key : String)
    (value : StateVal) :
    (∀ e, (update_state_field ctx key value).2 = Except.error e →
        (update_state_field ctx key value).1 = ctx)
    ∧ (∀ msg, (update_state_field ctx key value).2 = Except.ok msg →
        msg = "Itinerary state updated successfully."
        ∧ ∃ st2 loc,
            (update_state_field ctx key value).1 = update_state ctx st2
            ∧ lookupLoc st2 loc = some value
            ∧ ∀ q, ¬ loc <+: q → ¬ q <+: loc →
                lookupLoc st2 q = lookupLoc (get_state ctx) q) := by
  cases hm : mutatePath (get_state ctx) (pySplit key) value with
  | error e =>
    refine ⟨fun e2 h2 => ?_, fun msg h2 => ?_⟩
    · simp only [update_state_field, hm]
    · simp only [update_state_field, hm] at h2
      exact absurd h2 (by simp)
  | ok st2 =>
    refine ⟨fun e2 h2 => ?_, fun msg h2 => ?_⟩
    · simp only [update_state_field, hm] at h2
      exact absurd h2 (by simp)
    · simp only [update_state_field, hm] at h2
      injection h2 with hmsg
      obtain ⟨loc, hv, hframe⟩ :=
        mutatePath_frame (pySplit key) (get_state ctx) value st2 hm
      exact ⟨hmsg.symm, st2, loc, by simp only [update_state_field, hm], hv, hframe⟩

/-- Claim C10, witness: resolving `"days.5.x"` raises `IndexError`
(index 5 into a one-element list) and the context is returned exactly as
it was. -/
theorem C10_witness :
    (update_state_field
        ⟨[("itinerary_state",
           StateVal.obj [("days", StateVal.arr [StateVal.prim ("d1")])])]⟩
        ("days.5.x") (StateVal.prim ("v"))).1
      = ⟨[("itinerary_state",
           StateVal.obj [("days", StateVal.arr [StateVal.prim ("d1")])])]⟩ :=
  (C10_update_state_field_atomic
      ⟨[("itinerary_state",
         StateVal.obj [("days", StateVal.arr [StateVal.prim ("d1")])])]⟩
      ("days.5.x") (StateVal.prim ("v"))).1 PyErr.indexError rfl
